import Mathlib

/-!
Verification development for the PardoX Hyper Copy benchmark repository.

The repository ships a Python benchmark harness (`benchmark_sales_universal.py`)
that drives the PardoX native pipeline (`pardox_hyper_copy_v3`) through an FFI
boundary.  The harness itself is embedded below from its source; the native
pipeline, the system profiler and the buffer pool live in the `pardox` native
library, whose code is not part of this repository's sources, so those
components are modelled from the specification (each such definition carries a
doc comment starting with `Modelled from the spec:`).
-/

namespace PardoX

/-! ## Harness constants, embedded from `benchmark_sales_universal.py` -/

/-- `TARGET_RAM_RATIO = 0.45` — percentage of RAM dedicated to the HyperBlock
buffer (line 35 of the harness).  The Python float is modelled as a rational. -/
def TARGET_RAM_RATIO : ℚ := 45 / 100

/-- `STRICT_SCHEMA` — the list of `{"name": ..., "type": ...}` dicts (lines
143-152), embedded as (name, type) pairs. -/
def STRICT_SCHEMA : List (String × String) :=
  [ ("transaction_id", "Int64"),
    ("client_id", "Int64"),
    ("date_time", "Datetime"),
    ("entity", "String"),
    ("category", "String"),
    ("client_segment", "String"),
    ("amount", "Float64"),
    ("tax_rate", "Float64") ]

/-- `HYPER_TYPE_MAP` — the dict mapping nice names to Rust HyperTypes
(lines 155-158), embedded as an association list. -/
def HYPER_TYPE_MAP : List (String × String) :=
  [ ("Int64", "Int64"), ("Float64", "Float64"),
    ("String", "Utf8"), ("Datetime", "Timestamp") ]

/-- `column_names = [col["name"] for col in STRICT_SCHEMA]` (line 160). -/
def column_names : List String := STRICT_SCHEMA.map Prod.fst

/-- `column_types = [HYPER_TYPE_MAP[col["type"]] for col in STRICT_SCHEMA]`
(line 161).  A missing key raises `KeyError` in Python, so the embedding
returns `none` in that case and `some` of the list otherwise. -/
def column_types : Option (List String) :=
  STRICT_SCHEMA.mapM fun col => HYPER_TYPE_MAP.lookup col.2

/-- The set of type strings the native side accepts in `schema_json`
(spec section 6): `{Int64, Float64, Utf8, Timestamp}`. -/
def allowedTypes : List String := ["Int64", "Float64", "Utf8", "Timestamp"]

/-- Shape of `schema_json` at the FFI boundary:
`{"column_names": [string...], "column_types": [string...]}` (line 163 of the
harness and spec section 6). -/
structure SchemaDecl where
  column_names : List String
  column_types : List String
deriving DecidableEq

/-- `HYPER_SCHEMA_JSON` — the decoded form of the JSON object the harness
serializes on line 163: `some` when every `STRICT_SCHEMA` type is a key of
`HYPER_TYPE_MAP`, mirroring that Python would have raised `KeyError` before
ever building the JSON otherwise. -/
def HYPER_SCHEMA_JSON : Option SchemaDecl :=
  column_types.map fun ts => { column_names := column_names, column_types := ts }

/-- `config_json` shape: `{"delimiter": byte, "quote_char": byte,
"has_header": bool, "chunk_size": u64, "target_ram_ratio": float}`
(spec section 6); floats modelled as rationals. -/
structure RawConfig where
  delimiter : Nat
  quote_char : Nat
  has_header : Bool
  chunk_size : Nat
  target_ram_ratio : ℚ
deriving DecidableEq

/-- `OPTIMAL_CHUNK_SIZE_MB = system_info.get("io_chunk_mb", 16)` (line 127):
the harness falls back to 16 MB when the system report lacks the field. -/
def OPTIMAL_CHUNK_SIZE_MB (io_chunk_mb : Option Nat) : Nat :=
  io_chunk_mb.getD 16

/-- `CSV_CONFIG` (lines 166-172): `delimiter = ord(",") = 44`,
`quote_char = ord of the double-quote = 34`, `has_header = True`,
`chunk_size = OPTIMAL_CHUNK_SIZE_MB * 1024 * 1024`,
`target_ram_ratio = TARGET_RAM_RATIO`. -/
def CSV_CONFIG (io_chunk_mb : Option Nat) : RawConfig :=
  { delimiter := 44
    quote_char := 34
    has_header := true
    chunk_size := OPTIMAL_CHUNK_SIZE_MB io_chunk_mb * 1024 * 1024
    target_ram_ratio := TARGET_RAM_RATIO }

/-! ## Harness result reporting, embedded from lines 219-250 -/

/-- The `errors` dict of the harness (lines 236-247), embedded as an
association list from return code to message. -/
def errors : List (Int × String) :=
  [ (0, "No files matched or empty data."),
    (-1, "Invalid Source Pattern."),
    (-2, "Invalid Output Path."),
    (-3, "Schema Error."),
    (-4, "Config Error."),
    (-5, "Directory/Globbing Error."),
    (-6, "CSV Parse Error."),
    (-7, "Writer Creation Failed."),
    (-10, "Channel Error."),
    (-11, "Panic in Worker Thread.") ]

/-- `errors.get(rows_written, "Unknown Error")` (line 250). -/
def errorsGet (code : Int) : String :=
  (errors.lookup code).getD "Unknown Error"

/-- What the results section of the harness prints for a given return value. -/
structure ResultReport where
  success : Bool
  headline : String
  reason : Option String
deriving DecidableEq

/-- The branch on `rows_written` in the harness results section (lines
219-250): `if rows_written > 0` prints the success block, otherwise the
failure block with headline `ERROR: Pipeline Failed.` and the reason looked
up in `errors`. -/
def reportBranch (rows_written : Int) : ResultReport :=
  if rows_written > 0 then
    { success := true, headline := "SUCCESS! Pipeline Completed.", reason := none }
  else
    { success := false, headline := "ERROR: Pipeline Failed.",
      reason := some (errorsGet rows_written) }

/-! ## Harness control flow before the FFI call, lines 180-207 -/

/-- Outcome of the harness execution section: either the script exits with a
`SystemExit` code before the FFI call, or it reaches the
`pardox_hyper_copy_v3` call site with the recorded number of matched files. -/
inductive HarnessOutcome where
  | exited : Nat → HarnessOutcome
  | pipelineCalled : Nat → HarnessOutcome
deriving DecidableEq

/-- The harness execution flow from `files_found = len(glob.glob(...))`
(line 180) to the pipeline call (line 202): when `files_found == 0` the script
raises `SystemExit(1)` (line 194), otherwise it proceeds to invoke
`pardox_hyper_copy_v3`. -/
def harnessExecution (files_found : Nat) : HarnessOutcome :=
  if files_found = 0 then .exited 1 else .pipelineCalled files_found

/-! ## The native pipeline, modelled from the spec

The `pardox` native library implementing `pardox_hyper_copy_v3`, the system
profiler and the HyperBlock buffer pool is not among this repository's source
files; only its FFI declarations and this calling harness are.  The following
definitions model it from the specification. -/

/-- Modelled from the spec: the closed set of logical column types of the
schema compiler (spec sections 3 and 4.2). -/
inductive LogicalType where
  | int64
  | float64
  | utf8
  | timestamp
deriving DecidableEq

/-- Modelled from the spec: mapping a `schema_json` type string to its
logical type; strings outside `{Int64, Float64, Utf8, Timestamp}` are
unrecognized (spec section 6). -/
def compileType (t : String) : Option LogicalType :=
  if t = "Int64" then some .int64
  else if t = "Float64" then some .float64
  else if t = "Utf8" then some .utf8
  else if t = "Timestamp" then some .timestamp
  else none

/-- Modelled from the spec: compile every declared type string, failing on the
first unrecognized one. -/
def compileTypes : List String → Option (List LogicalType)
  | [] => some []
  | t :: ts =>
    match compileType t, compileTypes ts with
    | some lt, some lts => some (lt :: lts)
    | _, _ => none

/-- Modelled from the spec: the schema compiler (spec section 4.2).  Validates
a non-empty column list, unique names, every logical type recognized, and the
two lists of equal length; returns the compiled column list or `none` for a
`SchemaError`. -/
def compileSchema (d : SchemaDecl) : Option (List (String × LogicalType)) :=
  match compileTypes d.column_types with
  | none => none
  | some ts =>
    if d.column_names.length = ts.length ∧ d.column_names ≠ [] ∧ d.column_names.Nodup
    then some (d.column_names.zip ts)
    else none

/-- Modelled from the spec: the config compiler's validation (spec section
4.3): fails when `chunk_size == 0`, `target_ram_ratio` is not in `(0,1]`, or
delimiter/quote characters are not single bytes. -/
def configValid (c : RawConfig) : Bool :=
  decide (c.chunk_size ≠ 0) &&
  decide (0 < c.target_ram_ratio) &&
  decide (c.target_ram_ratio ≤ 1) &&
  decide (c.delimiter < 256) &&
  decide (c.quote_char < 256)

/-- Modelled from the spec: an integer literal for `Int64` coercion — an
optional leading minus sign followed by at least one digit. -/
def isIntLit (s : String) : Bool :=
  match s.data with
  | [] => false
  | c :: cs =>
    if c = '-' then !cs.isEmpty && cs.all Char.isDigit
    else (c :: cs).all Char.isDigit

/-- Modelled from the spec: decimal digits with an optional fractional part. -/
def isDigitsDot (l : List Char) : Bool :=
  match l.span Char.isDigit with
  | (ds, []) => !ds.isEmpty
  | (ds, c :: rest) =>
    !ds.isEmpty && c = '.' && !rest.isEmpty && rest.all Char.isDigit

/-- Modelled from the spec: a floating-point literal for `Float64` coercion. -/
def isFloatLit (s : String) : Bool :=
  match s.data with
  | '-' :: rest => isDigitsDot rest
  | l => isDigitsDot l

/-- Modelled from the spec: a well-formed timestamp literal for `Datetime`
coercion — a non-empty string of digits and date/time punctuation. -/
def isTimestampLit (s : String) : Bool :=
  !s.data.isEmpty &&
  s.data.all fun c => c.isDigit || c = '-' || c = ':' || c = ' ' || c = '.' || c = 'T'

/-- Modelled from the spec: field coercion into the compiled physical type
(spec section 4.6); `Utf8` accepts any field. -/
def parseField : LogicalType → String → Bool
  | .int64, s => isIntLit s
  | .float64, s => isFloatLit s
  | .utf8, _ => true
  | .timestamp, s => isTimestampLit s

/-- A CSV row after field splitting: one string per field. -/
def Row : Type := List String

/-- A matched CSV file: its rows, header row included when present. -/
def CsvFile : Type := List (List String)

/-- Modelled from the spec: a row parses when it has one field per schema
column and every field coerces to its column's type; a wrong field count is a
malformed row (spec section 4.6). -/
def rowParses (sch : List (String × LogicalType)) (row : List String) : Bool :=
  row.length = sch.length &&
  (sch.zip row).all fun p => parseField p.1.2 p.2

/-- Modelled from the spec: the data rows of a file — all rows, minus one
header row when `has_header` is set (spec section 8). -/
def dataRows (hasHeader : Bool) (f : List (List String)) : List (List String) :=
  if hasHeader then f.drop 1 else f

/-- Modelled from the spec: parse one file's data rows; `none` is a CSV parse
error (type coercion failure or malformed row fails the whole pipeline, no
partial-row silent drops, spec section 4.6), `some n` counts its data rows. -/
def countFile (sch : List (String × LogicalType)) (hasHeader : Bool)
    (f : List (List String)) : Option Nat :=
  if (dataRows hasHeader f).all (rowParses sch)
  then some (dataRows hasHeader f).length
  else none

/-- Modelled from the spec: parse every matched file, summing data-row counts;
any file's parse failure fails the run. -/
def countFiles (sch : List (String × LogicalType)) (hasHeader : Bool) :
    List (List (List String)) → Option Nat
  | [] => some 0
  | f :: fs =>
    match countFile sch hasHeader f, countFiles sch hasHeader fs with
    | some a, some b => some (a + b)
    | _, _ => none

/-- Modelled from the spec: runtime faults of the streaming phase — a normal
run, an internal coordination (channel) error, or an unrecoverable worker
panic (spec sections 4.6 and 6). -/
inductive RunEvent where
  | ok
  | channelFault
  | workerPanic
deriving DecidableEq

/-- Modelled from the spec: the host environment behind the FFI boundary.
Argument marshaling, glob expansion on disk and output-file creation are out
of scope of the core (spec section 1), so they are supplied as functions of
the four string arguments: pattern validity and glob expansion (to the decoded
contents of the matched files, in stable order), output-path validity and
writer creation, JSON decoding of the schema and config strings, and the
runtime fault of the streaming phase. -/
structure HostEnv where
  patternOk : String → Bool
  glob : String → Except Unit (List (List (List String)))
  outputOk : String → Bool
  writerCreateOk : String → Bool
  decodeSchema : String → Option SchemaDecl
  decodeConfig : String → Option RawConfig
  runEvent : RunEvent

/-- Result of a pipeline run: the signed return code and the number of rows in
a finalized, valid output container (0 when no container was finalized). -/
structure RunOutcome where
  code : Int
  outputRowsWritten : Nat
deriving DecidableEq

/-- Modelled from the spec: the Hyper Copy Pipeline orchestrator state machine
(spec section 4.8) — Resolving (pattern check `-1`, glob traversal `-5`),
Validating (schema `-3`, config `-4`), the distinguished no-op success `0` for
an empty file set, output path `-2`, writer creation `-7`, streaming faults
(channel `-10`, worker panic `-11`, CSV parse `-6`), and otherwise the total
row count written to the container. -/
def hyperCopyRun (env : HostEnv)
    (source_pattern output_path schema_json config_json : String) : RunOutcome :=
  if !env.patternOk source_pattern then { code := -1, outputRowsWritten := 0 }
  else
    match env.glob source_pattern with
    | .error _ => { code := -5, outputRowsWritten := 0 }
    | .ok files =>
      match env.decodeSchema schema_json with
      | none => { code := -3, outputRowsWritten := 0 }
      | some sd =>
        match compileSchema sd with
        | none => { code := -3, outputRowsWritten := 0 }
        | some sch =>
          match env.decodeConfig config_json with
          | none => { code := -4, outputRowsWritten := 0 }
          | some rc =>
            if !configValid rc then { code := -4, outputRowsWritten := 0 }
            else if files.isEmpty then { code := 0, outputRowsWritten := 0 }
            else if !env.outputOk output_path then { code := -2, outputRowsWritten := 0 }
            else if !env.writerCreateOk output_path then { code := -7, outputRowsWritten := 0 }
            else
              match env.runEvent with
              | .channelFault => { code := -10, outputRowsWritten := 0 }
              | .workerPanic => { code := -11, outputRowsWritten := 0 }
              | .ok =>
                match countFiles sch rc.has_header files with
                | none => { code := -6, outputRowsWritten := 0 }
                | some n => { code := Int.ofNat n, outputRowsWritten := n }

/-- Modelled from the spec: the FFI entry point — four string inputs, one
signed 64-bit return value (spec section 6). -/
def pardox_hyper_copy_v3 (env : HostEnv)
    (source_pattern output_path schema_json config_json : String) : Int :=
  (hyperCopyRun env source_pattern output_path schema_json config_json).code

/-- The error codes of the spec's section-6 table. -/
def errorCodes : List Int := [-1, -2, -3, -4, -5, -6, -7, -10, -11]

/-! ## HyperBlock buffer pool, modelled from the spec (section 4.5) -/

/-- Modelled from the spec: the state of the HyperBlock buffer pool — the
configured `target_ram_ratio`, total system RAM in bytes, and the capacities
in bytes of the outstanding (acquired and not yet released) blocks. -/
structure PoolState where
  ratio : ℚ
  totalRam : Nat
  outstanding : List Nat
deriving DecidableEq

/-- The memory budget of the pool: `target_ram_ratio × total_system_RAM`. -/
def PoolState.budget (s : PoolState) : ℚ := s.ratio * s.totalRam

/-- Total bytes of all outstanding blocks. -/
def PoolState.outstandingBytes (s : PoolState) : Nat := s.outstanding.sum

/-- The pool invariant: outstanding HyperBlock bytes never exceed the budget. -/
def poolInv (s : PoolState) : Prop :=
  (s.outstandingBytes : ℚ) ≤ s.budget

/-- Modelled from the spec: the pool's transitions (spec section 4.5).
`acquire` hands a block of capacity `cap` to a worker only when it fits in the
remaining budget — when the budget is exhausted the transition is not enabled,
which models the calling worker suspending until a release frees capacity;
`release` returns a previously acquired block's capacity to the pool.  The
configuration (`ratio`, `totalRam`) never changes during a run. -/
inductive PoolStep : PoolState → PoolState → Prop
  | acquire (s : PoolState) (cap : Nat)
      (hfit : ((s.outstandingBytes + cap : Nat) : ℚ) ≤ s.budget) :
      PoolStep s { s with outstanding := cap :: s.outstanding }
  | release (s : PoolState) (cap : Nat) (hmem : cap ∈ s.outstanding) :
      PoolStep s { s with outstanding := s.outstanding.erase cap }

/-- Reflexive-transitive closure of `PoolStep`: every instant of a run is a
state reachable from the initial pool state. -/
inductive PoolReachable (init : PoolState) : PoolState → Prop
  | refl : PoolReachable init init
  | step {s t : PoolState} : PoolReachable init s → PoolStep s t →
      PoolReachable init t

/-! ## System profiler, modelled from the spec (sections 4.1 and 6) -/

/-- The `SystemReport` of the spec's data model (section 3). -/
structure SystemReport where
  profile : String
  thread_count : Nat
  io_chunk_mb : Nat
  gpu_detected : Bool
deriving DecidableEq

/-- Modelled from the spec: a raw hardware-introspection snapshot; `profile`
receives `none` when hardware introspection is unavailable. -/
structure HwProbe where
  cores : Nat
  ramMb : Nat
  gpu : Bool
deriving DecidableEq

/-- The conservative default report of the spec (section 4.1):
`thread_count = 1`, `io_chunk_mb = 16`. -/
def defaultReport : SystemReport :=
  { profile := "Standard", thread_count := 1, io_chunk_mb := 16,
    gpu_detected := false }

/-- Modelled from the spec: `profile() -> SystemReport` (section 4.1) — a
total function: when introspection is unavailable it degrades to the
conservative defaults, otherwise it derives the report from the probe,
keeping `thread_count ≥ 1` and `io_chunk_mb > 0`. -/
def profile (hw : Option HwProbe) : SystemReport :=
  match hw with
  | none => defaultReport
  | some h =>
    { profile := if h.ramMb ≥ 32768 then "HighMemory" else "Standard"
      thread_count := max 1 h.cores
      gpu_detected := h.gpu
      io_chunk_mb := max 1 (min 64 (h.ramMb / 1024)) }

/-- A JSON scalar value, as far as the system report needs. -/
inductive JsonVal where
  | str : String → JsonVal
  | num : Nat → JsonVal
  | bool : Bool → JsonVal
deriving DecidableEq

/-- Modelled from the spec: the JSON object returned by the parameterless
system-report query (spec section 6), as an ordered field list. -/
def systemReportJson (r : SystemReport) : List (String × JsonVal) :=
  [ ("profile", .str r.profile),
    ("threads", .num r.thread_count),
    ("io_chunk_mb", .num r.io_chunk_mb),
    ("gpu_detected", .bool r.gpu_detected) ]

/-- The auto-tuning handshake of the harness (lines 119-125): if the
system-report call returns a buffer, the harness decodes it and immediately
releases it with `pardox_free_string`; a null pointer leaves `system_info`
empty and frees nothing.  Result: the decoded report string (if any) and
whether the returned buffer was freed. -/
def handshake (raw_ptr : Option String) : Option String × Bool :=
  match raw_ptr with
  | none => (none, false)
  | some s => (some s, true)

/-! ## Concrete fixtures used to witness the theorems below

`sampleFiles` is the spec's Scenario A: a schema with one `Int64` column and
one 3-row CSV file with a header row. -/

/-- One matched CSV file: a header row followed by three `Int64` data rows. -/
def sampleFiles : List (List (List String)) :=
  [ [ ["transaction_id"], ["1"], ["2"], ["3"] ] ]

/-- A one-column `Int64` schema declaration (Scenario A of the spec). -/
def sampleSchemaDecl : SchemaDecl :=
  { column_names := ["transaction_id"], column_types := ["Int64"] }

/-- A valid config: comma delimiter, double-quote, header present, 16 MB
chunks, `target_ram_ratio = 0.45`. -/
def sampleConfig : RawConfig :=
  { delimiter := 44, quote_char := 34, has_header := true,
    chunk_size := 16 * 1024 * 1024, target_ram_ratio := 45 / 100 }

/-- `sampleConfig` with the malformed `target_ram_ratio = 0` of Scenario B. -/
def zeroRatioConfig : RawConfig :=
  { sampleConfig with target_ram_ratio := 0 }

/-- A well-behaved host environment resolving the pattern to `sampleFiles`. -/
def sampleEnv : HostEnv :=
  { patternOk := fun _ => true
    glob := fun _ => .ok sampleFiles
    outputOk := fun _ => true
    writerCreateOk := fun _ => true
    decodeSchema := fun _ => some sampleSchemaDecl
    decodeConfig := fun _ => some sampleConfig
    runEvent := .ok }

/-- `sampleEnv` with a glob matching zero files. -/
def emptyGlobEnv : HostEnv :=
  { sampleEnv with glob := fun _ => .ok [] }

/-- `sampleEnv` with the malformed config of Scenario B. -/
def badConfigEnv : HostEnv :=
  { sampleEnv with decodeConfig := fun _ => some zeroRatioConfig }

/-! ## Helper lemmas -/

/-- When every data row of a file parses, `countFile` counts its data rows. -/
theorem countFile_eq (sch : List (String × LogicalType)) (hh : Bool)
    (f : List (List String))
    (hp : ∀ r ∈ dataRows hh f, rowParses sch r = true) :
    countFile sch hh f = some (dataRows hh f).length := by
  have hall : (dataRows hh f).all (rowParses sch) = true := List.all_eq_true.mpr hp
  simp [countFile, hall]

/-- When every data row of every file parses, `countFiles` returns the sum of
the per-file data-row counts. -/
theorem countFiles_eq (sch : List (String × LogicalType)) (hh : Bool) :
    ∀ files : List (List (List String)),
      (∀ f ∈ files, ∀ r ∈ dataRows hh f, rowParses sch r = true) →
      countFiles sch hh files =
        some ((files.map fun f => (dataRows hh f).length).sum) := by
  intro files
  induction files with
  | nil => intro _; simp [countFiles]
  | cons f fs ih =>
    intro hp
    have h1 := countFile_eq sch hh f (fun r hr => hp f (List.mem_cons_self f fs) r hr)
    have h2 := ih (fun g hg r hr => hp g (List.mem_cons_of_mem f hg) r hr)
    simp [countFiles, h1, h2]

/-- `compileType` only succeeds on the four allowed type strings. -/
theorem compileType_mem (t : String) (lt : LogicalType)
    (h : compileType t = some lt) : t ∈ allowedTypes := by
  unfold compileType at h
  repeat' split at h
  all_goals simp_all [allowedTypes]

/-- `compileTypes` only succeeds when all type strings are allowed. -/
theorem compileTypes_mem : ∀ (l : List String) (ts : List LogicalType),
    compileTypes l = some ts → ∀ t ∈ l, t ∈ allowedTypes := by
  intro l
  induction l with
  | nil => intro ts _ t ht; simp at ht
  | cons a l ih =>
    intro ts h t ht
    unfold compileTypes at h
    cases hca : compileType a with
    | none => rw [hca] at h; simp at h
    | some la =>
      rw [hca] at h
      cases hcl : compileTypes l with
      | none => rw [hcl] at h; simp at h
      | some ls =>
        rcases List.mem_cons.mp ht with rfl | hmem
        · exact compileType_mem t la hca
        · exact ih ls hcl t hmem

/-- Each pool transition preserves the budget invariant. -/
theorem poolStep_preserves_inv {s t : PoolState} (hs : poolInv s)
    (hstep : PoolStep s t) : poolInv t := by
  cases hstep with
  | acquire cap hfit =>
    unfold poolInv PoolState.outstandingBytes PoolState.budget at hs hfit ⊢
    simp only [List.sum_cons]
    push_cast at hfit ⊢
    linarith
  | release cap hmem =>
    unfold poolInv PoolState.outstandingBytes PoolState.budget at hs ⊢
    have hle : (s.outstanding.erase cap).sum ≤ s.outstanding.sum :=
      List.Sublist.sum_le_sum (List.erase_sublist cap s.outstanding)
        (fun a _ => Nat.zero_le a)
    calc ((s.outstanding.erase cap).sum : ℚ)
        ≤ (s.outstanding.sum : ℚ) := by exact_mod_cast hle
      _ ≤ s.ratio * s.totalRam := hs

/-! ## Claim theorems -/

/-- C1: for every run in which every data row of every matched input file
parses successfully, the pipeline entry point returns exactly the sum of data
rows across all matched files, excluding one header row per file when
`has_header` is true in the config. -/
theorem rows_written_eq_data_rows
    (env : HostEnv) (p o s c : String) (sd : SchemaDecl)
    (sch : List (String × LogicalType)) (rc : RawConfig)
    (files : List (List (List String)))
    (hpat : env.patternOk p = true)
    (hglob : env.glob p = .ok files)
    (hsd : env.decodeSchema s = some sd)
    (hsch : compileSchema sd = some sch)
    (hrc : env.decodeConfig c = some rc)
    (hcfg : configValid rc = true)
    (hout : env.outputOk o = true)
    (hwr : env.writerCreateOk o = true)
    (hrun : env.runEvent = .ok)
    (hparse : ∀ f ∈ files, ∀ r ∈ dataRows rc.has_header f, rowParses sch r = true) :
    pardox_hyper_copy_v3 env p o s c =
      Int.ofNat ((files.map fun f => (dataRows rc.has_header f).length).sum) := by
  have hcount := countFiles_eq sch rc.has_header files hparse
  rcases files with _ | ⟨f, fs⟩
  · simp [pardox_hyper_copy_v3, hyperCopyRun, hpat, hglob, hsd, hsch, hrc, hcfg]
  · simp [pardox_hyper_copy_v3, hyperCopyRun, hpat, hglob, hsd, hsch, hrc, hcfg,
      hout, hwr, hrun, hcount]

/-- Witness for C1 at Scenario A: one file with a header and three `Int64`
rows yields return value 3. -/
theorem rows_written_eq_data_rows_witness :
    pardox_hyper_copy_v3 sampleEnv "pat" "out" "schema" "cfg" = Int.ofNat 3 := by
  have h := rows_written_eq_data_rows sampleEnv "pat" "out" "schema" "cfg"
    sampleSchemaDecl [("transaction_id", LogicalType.int64)] sampleConfig sampleFiles
    rfl rfl rfl (by decide) rfl
    (by norm_num [configValid, sampleConfig, TARGET_RAM_RATIO])
    rfl rfl rfl (by decide)
  rw [h]
  decide

/-- C2: the pipeline entry point takes four string inputs and its signed
return value is either non-negative or one of the error codes
`{-1, -2, -3, -4, -5, -6, -7, -10, -11}`; no other negative value occurs. -/
theorem pipeline_return_code_range (env : HostEnv) (p o s c : String) :
    0 ≤ pardox_hyper_copy_v3 env p o s c ∨
      pardox_hyper_copy_v3 env p o s c ∈ errorCodes := by
  unfold pardox_hyper_copy_v3 hyperCopyRun
  repeat' split
  all_goals first
    | (left; exact Int.ofNat_nonneg _)
    | (right; decide)

/-- C3: with a valid schema and valid config, a pattern matching zero files
yields the distinguished no-op success: return code 0 and no output rows. -/
theorem zero_files_noop_success
    (env : HostEnv) (p o s c : String) (sd : SchemaDecl)
    (sch : List (String × LogicalType)) (rc : RawConfig)
    (hpat : env.patternOk p = true)
    (hglob : env.glob p = .ok [])
    (hsd : env.decodeSchema s = some sd)
    (hsch : compileSchema sd = some sch)
    (hrc : env.decodeConfig c = some rc)
    (hcfg : configValid rc = true) :
    hyperCopyRun env p o s c = { code := 0, outputRowsWritten := 0 } := by
  simp [hyperCopyRun, hpat, hglob, hsd, hsch, hrc, hcfg]

/-- Witness for C3: the empty-glob environment returns code 0, zero rows. -/
theorem zero_files_noop_success_witness :
    hyperCopyRun emptyGlobEnv "pat" "out" "schema" "cfg" =
      { code := 0, outputRowsWritten := 0 } :=
  zero_files_noop_success emptyGlobEnv "pat" "out" "schema" "cfg"
    sampleSchemaDecl [("transaction_id", LogicalType.int64)] sampleConfig
    rfl rfl rfl (by decide) rfl
    (by norm_num [configValid, sampleConfig, TARGET_RAM_RATIO])

/-- C4: acquiring only when the block fits the remaining budget and releasing
previously acquired capacity preserve, at every reachable instant, the
invariant that outstanding HyperBlock bytes are at most
`target_ram_ratio × total_system_RAM`. -/
theorem hyperblock_pool_invariant :
    (∀ s t : PoolState, poolInv s → PoolStep s t → poolInv t) ∧
    (∀ init s : PoolState, poolInv init → PoolReachable init s → poolInv s) := by
  constructor
  · intro s t hs hstep
    exact poolStep_preserves_inv hs hstep
  · intro init s hinit hreach
    induction hreach with
    | refl => exact hinit
    | step _ hstep ih => exact poolStep_preserves_inv ih hstep

/-- Witness for C4: from an empty pool with budget `0.45 × 1000`, acquiring a
100-byte block is a legal step and the invariant holds afterwards. -/
theorem hyperblock_pool_invariant_witness :
    poolInv { ratio := (45 : ℚ) / 100, totalRam := 1000, outstanding := [100] } :=
  hyperblock_pool_invariant.2
    { ratio := (45 : ℚ) / 100, totalRam := 1000, outstanding := [] } _
    (by norm_num [poolInv, PoolState.outstandingBytes, PoolState.budget])
    (PoolReachable.step PoolReachable.refl
      (PoolStep.acquire _ 100
        (by norm_num [PoolState.outstandingBytes, PoolState.budget])))

/-- C5: whatever file set the glob resolves (and with a schema that
compiles), a config whose `target_ram_ratio` is outside `(0,1]`, or whose
`chunk_size` is 0, or whose delimiter/quote is not a single byte, makes the
pipeline return the config-error code -4. -/
theorem invalid_config_returns_neg4
    (env : HostEnv) (p o s c : String) (sd : SchemaDecl)
    (sch : List (String × LogicalType)) (rc : RawConfig)
    (files : List (List (List String)))
    (hpat : env.patternOk p = true)
    (hglob : env.glob p = .ok files)
    (hsd : env.decodeSchema s = some sd)
    (hsch : compileSchema sd = some sch)
    (hrc : env.decodeConfig c = some rc)
    (hbad : configValid rc = false) :
    pardox_hyper_copy_v3 env p o s c = -4 := by
  simp [pardox_hyper_copy_v3, hyperCopyRun, hpat, hglob, hsd, hsch, hrc, hbad]

/-- Witness for C5 at Scenario B: `target_ram_ratio = 0` returns -4 even
though the glob matched a perfectly parseable file. -/
theorem invalid_config_returns_neg4_witness :
    pardox_hyper_copy_v3 badConfigEnv "pat" "out" "schema" "cfg" = -4 :=
  invalid_config_returns_neg4 badConfigEnv "pat" "out" "schema" "cfg"
    sampleSchemaDecl [("transaction_id", LogicalType.int64)] zeroRatioConfig
    sampleFiles rfl rfl rfl (by decide) rfl
    (by norm_num [configValid, zeroRatioConfig, sampleConfig])

/-- C6: the harness's `HYPER_TYPE_MAP` maps each logical type to exactly one
physical encoding (Int64→Int64, Float64→Float64, String→Utf8,
Datetime→Timestamp); the schema JSON it builds has the
column_names/column_types shape with every type drawn from
`{Int64, Float64, Utf8, Timestamp}`; and the schema compiler accepts a
declaration only when every type string is drawn from that set. -/
theorem schema_type_mapping :
    (HYPER_TYPE_MAP.lookup "Int64" = some "Int64" ∧
     HYPER_TYPE_MAP.lookup "Float64" = some "Float64" ∧
     HYPER_TYPE_MAP.lookup "String" = some "Utf8" ∧
     HYPER_TYPE_MAP.lookup "Datetime" = some "Timestamp") ∧
    HYPER_SCHEMA_JSON = some
      { column_names := column_names,
        column_types :=
          ["Int64", "Int64", "Timestamp", "Utf8", "Utf8", "Utf8",
           "Float64", "Float64"] } ∧
    (∀ k v, HYPER_TYPE_MAP.lookup k = some v → v ∈ allowedTypes) ∧
    (∀ sd sch, compileSchema sd = some sch →
      ∀ t ∈ sd.column_types, t ∈ allowedTypes) := by
  refine ⟨by decide, by decide, ?_, ?_⟩
  · intro k v h
    simp only [HYPER_TYPE_MAP, List.lookup] at h
    repeat' split at h
    all_goals simp_all [allowedTypes]
  · intro sd sch h t ht
    unfold compileSchema at h
    cases hct : compileTypes sd.column_types with
    | none => rw [hct] at h; simp at h
    | some ts => exact compileTypes_mem sd.column_types ts hct t ht

/-- Witness for C6: the compiler accepts the one-column `Int64` declaration,
so its type string is in the allowed set. -/
theorem schema_type_mapping_witness : "Int64" ∈ allowedTypes :=
  schema_type_mapping.2.2.2 sampleSchemaDecl
    [("transaction_id", LogicalType.int64)] (by decide) "Int64" (by decide)

/-- C7: the system-report query yields a JSON object whose fields are exactly
`profile, threads, io_chunk_mb, gpu_detected`, and whenever the call returns
a buffer the harness (the owning caller) releases it via the exposed free
call — and frees nothing when no buffer was returned. -/
theorem system_report_fields_and_free :
    (∀ r : SystemReport, (systemReportJson r).map Prod.fst =
      ["profile", "threads", "io_chunk_mb", "gpu_detected"]) ∧
    (∀ buf : String, (handshake (some buf)).2 = true) ∧
    (handshake none).2 = false :=
  ⟨fun _ => rfl, fun _ => rfl, rfl⟩

/-- C8: the profiler is a total function — it returns a report for every
introspection outcome, degrading to the conservative defaults
`thread_count = 1`, `io_chunk_mb = 16` when introspection is unavailable,
always keeping `thread_count ≥ 1` and `io_chunk_mb ≥ 1`; the harness applies
the same 16 MB fallback when the report lacks `io_chunk_mb`. -/
theorem profiler_never_fails_defaults :
    profile none = { profile := "Standard", thread_count := 1,
                     io_chunk_mb := 16, gpu_detected := false } ∧
    (∀ hw, 1 ≤ (profile hw).thread_count ∧ 1 ≤ (profile hw).io_chunk_mb) ∧
    OPTIMAL_CHUNK_SIZE_MB none = 16 := by
  refine ⟨rfl, fun hw => ?_, rfl⟩
  cases hw with
  | none => exact ⟨le_refl 1, by norm_num [profile, defaultReport]⟩
  | some h => exact ⟨le_max_left 1 h.cores, le_max_left 1 _⟩

/-- C9: the benchmark harness prints the success branch if and only if the
returned value is strictly positive; a return of exactly 0 takes the failure
branch, headlined `ERROR: Pipeline Failed.` with reason
`No files matched or empty data.`. -/
theorem harness_result_branch :
    (∀ r : Int, (reportBranch r).success = true ↔ 0 < r) ∧
    (reportBranch 0).success = false ∧
    (reportBranch 0).headline = "ERROR: Pipeline Failed." ∧
    (reportBranch 0).reason = some "No files matched or empty data." := by
  refine ⟨fun r => ?_, by decide, by decide, by decide⟩
  by_cases h : 0 < r <;> simp [reportBranch, h]

/-- C10: when the harness's glob matches zero files it raises
`SystemExit(1)` before the FFI pipeline call, and the call site is reached
exactly when at least one file matched. -/
theorem harness_zero_files_gate :
    harnessExecution 0 = HarnessOutcome.exited 1 ∧
    (∀ n, harnessExecution n = HarnessOutcome.pipelineCalled n ↔ 0 < n) := by
  refine ⟨rfl, fun n => ?_⟩
  by_cases h : n = 0
  · subst h; simp [harnessExecution]
  · simp [harnessExecution, h, Nat.pos_of_ne_zero h]

end PardoX
